import Mathlib

/-!
Shallow embedding of the unread-email triage pipeline of
`src/gmail/autolabel.py` (class `GmailService`), together with proofs
settling the frozen claims about its specification.

Conventions of the embedding:
* Python strings are Lean `String`s; byte sequences are `List Nat`.
* A Python function that can raise is embedded with `Except PyExn` (or
  `Option`, `none` = raised) — a `try/except` block is an explicit `match`.
* The two external collaborators (the Gmail API and the Ollama endpoint)
  are inputs of the embedded functions: an `Env` record carries, per
  message id, the fetch outcome, the oracle HTTP outcome, the mailbox
  label list and the result of a `modify` call.
* Python standard-library calls that the control flow depends on are
  modelled explicitly and marked `Model of CPython`: `str.split()`,
  `str.join`, `bytes.decode`, `email.header.decode_header` output.
* Mailbox side effects performed by the code are recorded in an `Action`
  trace (`markRead`, `applyLabel`) so that frame and ordering claims are
  statable.
-/

/-! ## Model of CPython string primitives used by the source -/

/-- Model of CPython `str.split()` with no separator, at the character
level: split on runs of whitespace, producing no empty tokens.  (Written
right-to-left to stay structurally recursive; the lemma
`pySplitChars_cons_of_not_ws` below gives the usual left-to-right
takeWhile/dropWhile characterization.) -/
def pySplitChars : List Char → List (List Char)
  | [] => []
  | c :: cs =>
    if c.isWhitespace then pySplitChars cs
    else
      match cs, pySplitChars cs with
      | [], _ => [[c]]
      | d :: _, r =>
        if d.isWhitespace then [c] :: r
        else
          match r with
          | [] => [[c]]
          | t :: ts => (c :: t) :: ts

/-- Model of CPython `str.split()` on `String`s. -/
def pySplit (s : String) : List String :=
  (pySplitChars s.data).map (fun l => String.mk l)

/-- Model of CPython `' '.join(words)`. -/
def pyJoinWords : List String → String
  | [] => ""
  | [w] => w
  | w :: ws => w ++ " " ++ pyJoinWords ws

/-- `GmailService.count_words` (autolabel.py lines 255-259):
`if not text: return 0` then `len(text.split())`. -/
def count_words (text : String) : Nat :=
  if text = "" then 0 else (pySplit text).length

/-! ## Model of CPython byte decoding -/

/-- Model of CPython strict `bytes.decode('utf-8')`: decoding is a partial
function that can fail (raise `UnicodeDecodeError`).  The model succeeds
exactly on ASCII byte sequences; all the source's control flow depends on
is the success/failure split, not the particular codec tables. -/
def decodeUtf8Strict (bs : List Nat) : Option String :=
  if bs.all (fun b => b < 128) then some (String.mk (bs.map Char.ofNat)) else none

/-- Model of CPython `bytes.decode('latin-1', errors='replace')`: total,
never fails; byte `b` maps to the code point of value `b`. -/
def decodeLatin1Replace (bs : List Nat) : String :=
  String.mk (bs.map Char.ofNat)

/-- Model of CPython `bytes.decode(encoding)` as used on header parts:
latin-1 is total, any other charset is modelled like strict utf-8. -/
def pyBytesDecode (encoding : String) (bs : List Nat) : Option String :=
  if encoding = "latin-1" then some (decodeLatin1Replace bs)
  else decodeUtf8Strict bs

/-! ## `decode_mime_header` (autolabel.py lines 92-104) -/

/-- One element of the list returned by CPython
`email.header.decode_header`: either an already-decoded string or raw
bytes with an optional charset. -/
inductive HeaderPart where
  | str (s : String)
  | bytes (bs : List Nat) (encoding : Option String)
deriving DecidableEq

/-- Python `encoding or 'utf-8'` on the charset slot (falsy = `None` or
the empty string). -/
def pyOr (enc : Option String) (dflt : String) : String :=
  match enc with
  | none => dflt
  | some s => if s = "" then dflt else s

/-- The accumulation loop of `decode_mime_header` (lines 96-104); `none`
models an uncaught decoding exception escaping the loop. -/
def decodeHeaderParts : List HeaderPart → String → Option String
  | [], acc => some acc
  | .str s :: ps, acc => decodeHeaderParts ps (acc ++ s)
  | .bytes bs enc :: ps, acc =>
    match pyBytesDecode (pyOr enc "utf-8") bs with
    | none => none
    | some d => decodeHeaderParts ps (acc ++ d)

/-- `decode_mime_header` (lines 92-104), taking the `decode_header`
output as input.  There is no `try/except` in the source: a part that
fails to decode raises (`none`). -/
def decode_mime_header (parts : List HeaderPart) : Option String :=
  decodeHeaderParts parts ""

/-- Whether one header part fails to decode. -/
def headerPartFails : HeaderPart → Bool
  | .str _ => false
  | .bytes bs enc => (pyBytesDecode (pyOr enc "utf-8") bs).isNone

/-! ## MIME message model (`email.message.Message`) -/

/-- A parsed MIME message: a non-multipart message holds its sole body
bytes, a multipart message holds its parts. -/
inductive Mime where
  | single (contentType : String) (bs : List Nat)
  | multi (contentType : String) (parts : List Mime)

/-- `Message.is_multipart()`. -/
def Mime.is_multipart : Mime → Bool
  | .single _ _ => false
  | .multi _ _ => true

/-- `Message.get_content_type()`. -/
def Mime.get_content_type : Mime → String
  | .single ct _ => ct
  | .multi ct _ => ct

/-- `Message.get_payload(decode=True)`: decoded bytes for a non-multipart
message, `None` for a multipart one. -/
def Mime.get_payload_decode : Mime → Option (List Nat)
  | .single _ bs => some bs
  | .multi _ _ => none

mutual
/-- `Message.walk()`: the message itself first, then every subpart,
depth-first. -/
def Mime.walk : Mime → List Mime
  | .single ct bs => [.single ct bs]
  | .multi ct ps => .multi ct ps :: Mime.walkList ps

def Mime.walkList : List Mime → List Mime
  | [] => []
  | p :: ps => Mime.walk p ++ Mime.walkList ps
end

/-! ## Exceptions and side-effect trace -/

/-- The Python exceptions relevant to the triage pipeline's control flow. -/
inductive PyExn where
  | httpError
  | binasciiError
  | unicodeDecodeError
  | attributeError
  | unboundLocalError
deriving DecidableEq

/-- A mailbox mutation performed during a run (the observable side
effects of `mark_email_as_read` and of the `modify` call inside
`label_email`). -/
inductive Effect where
  | markRead (email_id : String)
  | applyLabel (email_id : String) (labelID : String)
deriving DecidableEq

/-! ## `read_email` (autolabel.py lines 261-316) -/

/-- The headers `read_email` extracts from the parsed message: `subject`
is the `decode_header` output for `mime_message.get('subject','')`, the
others are used as plain strings. -/
structure MimeHeaders where
  subject : List HeaderPart
  fromAddr : String
  toAddr : String
  date : String

/-- The outcome of `service.messages().get(...)` followed by
`urlsafe_b64decode` and `message_from_bytes` for one message id:
the API call can raise `HttpError` (caught by `read_email`), the base64
decode can raise `binascii.Error` (not caught), and otherwise a parsed
message is obtained. -/
inductive FetchOutcome where
  | httpError (msg : String)
  | badBase64
  | msg (m : Mime) (hdrs : MimeHeaders)

/-- The dictionary built by `read_email` on success. -/
structure EmailMetadata where
  content : String
  subject : String
  fromAddr : String
  toAddr : String
  date : String
deriving DecidableEq

/-- What `read_email` hands back without raising: the metadata dict, or
the `HttpError` error string. -/
inductive ReadResult where
  | metadata (md : EmailMetadata)
  | errString (s : String)
deriving DecidableEq

/-- The word-cap step of `read_email` (lines 296-299):
`if self.count_words(body) > 10000: body = ' '.join(body.split()[:10000])`. -/
def truncateBody (body : String) : String :=
  if count_words body > 10000 then pyJoinWords ((pySplit body).take 10000)
  else body

/-- Body extraction of `read_email` (lines 276-290).  Faithful to the
source: in the multipart branch the `break` sits at loop-body level, so
only the FIRST element of `walk()` (the message itself) is examined, and
the payload decoded is `mime_message.get_payload(decode=True)` (the root,
which is `None` for a multipart message — `None.decode` raises
`AttributeError`); the utf-8/latin-1-replace fallback exists only there.
The non-multipart branch decodes with utf-8 only and raises on failure. -/
def extractBody (m : Mime) : Except PyExn (Option String) :=
  if m.is_multipart then
    match m.walk with
    | [] => .ok none
    | part :: _ =>
      if part.get_content_type = "text/plain" then
        match m.get_payload_decode with
        | none => .error .attributeError
        | some bs =>
          match decodeUtf8Strict bs with
          | some s => .ok (some s)
          | none => .ok (some (decodeLatin1Replace bs))
      else .ok none
  else
    match m.get_payload_decode with
    | none => .error .attributeError
    | some bs =>
      match decodeUtf8Strict bs with
      | some s => .ok (some s)
      | none => .error .unicodeDecodeError

/-- `read_email` (lines 261-316).  Returns the Python result (`.ok`) or
an uncaught exception (`.error`), together with the trace of mailbox
mutations it performed.  `mark_email_as_read` is invoked (line 312) only
after body and headers were extracted, right before returning the
metadata; the surrounding `try/except` catches only `HttpError` (from the
fetch).  `if not body` (line 292) replaces both `None` and the empty
string by the sentinel `"THIS IS SPAM"`. -/
def read_email (email_id : String) (fetch : FetchOutcome) :
    Except PyExn ReadResult × List Effect :=
  match fetch with
  | .httpError m => (.ok (.errString ("An HttpError occurred: " ++ m)), [])
  | .badBase64 => (.error .binasciiError, [])
  | .msg mime hdrs =>
    match extractBody mime with
    | .error e => (.error e, [])
    | .ok bodyOpt =>
      let body :=
        match bodyOpt with
        | none => "THIS IS SPAM"
        | some b => if b = "" then "THIS IS SPAM" else b
      let body := truncateBody body
      match decode_mime_header hdrs.subject with
      | none => (.error .unicodeDecodeError, [])
      | some subj =>
        (.ok (.metadata ⟨body, subj, hdrs.fromAddr, hdrs.toAddr, hdrs.date⟩),
          [.markRead email_id])

/-! ## `send_to_ollama` (autolabel.py lines 401-445) -/

/-- The `"message"` member of the oracle's JSON reply, itself holding an
optional `"content"` member (the spec's §6 contract
`expects Lbrace message: Lbrace content: label Rbrace Rbrace`). -/
structure OllamaMsg where
  content : Option String
deriving DecidableEq

/-- The parsed JSON body of a 200 reply: the `"message"` key may be
present or absent. -/
structure OllamaJson where
  message : Option OllamaMsg
deriving DecidableEq

/-- What the HTTP POST to the oracle did: a 200 with a JSON body, a
non-200 status, or a transport exception. -/
inductive OllamaHttp where
  | ok (j : OllamaJson)
  | status (code : Nat)
  | exn (msg : String)
deriving DecidableEq

/-- The dict returned by `send_to_ollama`: the oracle's JSON on success,
or the error dict `(is_important: False, error: marker)` built in lines
442 and 445 — note the error dict has NO `"message"` key. -/
inductive OllamaResponse where
  | json (j : OllamaJson)
  | errorDict (marker : String)
deriving DecidableEq

/-- `send_to_ollama` (lines 401-445): never raises; non-200 status and
transport exceptions are converted to the error dict. -/
def send_to_ollama : OllamaHttp → OllamaResponse
  | .ok j => .json j
  | .status code => .errorDict ("Status " ++ toString code)
  | .exn m => .errorDict m

/-- The Python value of the `label` variable at line 377: a string, or
`False` (the `.get` default). -/
inductive LabelVal where
  | str (s : String)
  | fls
deriving DecidableEq

/-- Python truthiness of the `label` variable (`if label:` at line 384):
`False` and the empty string are falsy. -/
def LabelVal.truthy : LabelVal → Bool
  | .str s => s ≠ ""
  | .fls => false

/-- Line 377: `label = response.get("message", False).get("content", False)`.
When the response has no `"message"` key — in particular for the error
dict `send_to_ollama` returns on oracle failure — the outer `.get` yields
`False`, and `False.get(...)` raises `AttributeError`. -/
def computeLabel : OllamaResponse → Except PyExn LabelVal
  | .json j =>
    match j.message with
    | some m =>
      .ok (match m.content with
        | some s => .str s
        | none => .fls)
    | none => .error .attributeError
  | .errorDict _ => .error .attributeError

/-! ## `label_email` (autolabel.py lines 229-253) -/

/-- The JSON error string built at line 244:
`json.dumps(Lbrace 'error': 'true', 'message': f"Label '...' not found." Rbrace)`. -/
def labelNotFoundResponse (label : String) : String :=
  "\x7b\"error\": \"true\", \"message\": \"Label \x27" ++ label ++ "\x27 not found.\"\x7d"

/-- `label_email` (lines 229-253), over the environment's label list and
`modify` behaviour.  `labelsList = .error e` models `labels().list()`
raising `HttpError`; `.ok none` models the reply lacking a `'labels'`
key; `modify = .error e` models the `modify` call raising `HttpError`.
Every `HttpError` is caught (returning the source's error string, with
its `"ttpError"` typo); the unknown-label branch returns the JSON error
string BEFORE any `modify` call, so no mutation is attempted.  The second
component is the trace of attempted label mutations. -/
def label_email (labelsList : Except String (Option (List (String × String))))
    (modify : String → String → Except String String)
    (email_id : String) (label : String) : String × List Effect :=
  match labelsList with
  | .error e => ("An ttpError occurred: " ++ e, [])
  | .ok none => ("No labels found in the account.", [])
  | .ok (some ls) =>
    match ls.find? (fun l => l.1 = label) with
    | none => (labelNotFoundResponse label, [])
    | some lbl =>
      match modify email_id lbl.2 with
      | .error e => ("An ttpError occurred: " ++ e, [.applyLabel email_id lbl.2])
      | .ok msgJson => (msgJson, [.applyLabel email_id lbl.2])

/-! ## `process_and_label_emails` (autolabel.py lines 336-399) -/

/-- The external world one triage run interacts with: the unread list
(each element is `email.get("id")`, `none` when the key is missing), and
per message id the fetch outcome, the oracle HTTP outcome, plus the
mailbox's label list and `modify` behaviour consumed by `label_email`. -/
structure Env where
  unread : List (Option String)
  fetch : String → FetchOutcome
  oracle : String → OllamaHttp
  labelsList : Except String (Option (List (String × String)))
  modify : String → String → Except String String

/-- One element of the `results` list (lines 388-393): the dict with
keys `email_id`, `label`, `label_response`, `ollama_response`. -/
structure Outcome where
  email_id : String
  label : LabelVal
  label_response : String
  ollama_response : OllamaResponse
deriving DecidableEq

/-- The `for email in unread_emails` loop (lines 358-393).  The second
argument is the current value of the Python local `label_response`
(`none` = not yet assigned: looking it up at line 391 then raises
`UnboundLocalError`); it persists across iterations.  The third and
fourth arguments accumulate `results` and the side-effect trace.  The
last component of the result is the exception, if any, escaping the loop
into the pipeline-level handler (line 397). -/
def processLoop (env : Env) :
    List (Option String) → Option String → List Outcome → List Effect →
    List Outcome × List Effect × Option PyExn
  | [], _, res, acts => (res, acts, none)
  | oid :: rest, lr, res, acts =>
    match oid with
    | none => processLoop env rest lr res acts
    | some email_id =>
      if email_id = "" then processLoop env rest lr res acts
      else
        match read_email email_id (env.fetch email_id) with
        | (.error e, acts2) => (res, acts ++ acts2, some e)
        | (.ok (.errString _), acts2) => processLoop env rest lr res (acts ++ acts2)
        | (.ok (.metadata _), acts2) =>
          let response := send_to_ollama (env.oracle email_id)
          match computeLabel response with
          | .error e => (res, acts ++ acts2, some e)
          | .ok label =>
            let step :=
              if label.truthy then
                match label with
                | .str s =>
                  let r := label_email env.labelsList env.modify email_id s
                  (some r.1, r.2)
                | .fls => (lr, [])
              else (lr, [])
            match step.1 with
            | none => (res, acts ++ acts2 ++ step.2, some .unboundLocalError)
            | some lrv =>
              processLoop env rest (some lrv)
                (res ++ [⟨email_id, label, lrv, response⟩])
                (acts ++ acts2 ++ step.2)

/-- `process_and_label_emails` (lines 336-399): returns the `results`
list handed to the caller together with the side-effect trace of the run.
`if not unread_emails: return []` (line 351) short-circuits the empty
unread list; the pipeline-level `except Exception` (lines 397-399)
catches any exception escaping the loop and returns `[]` — NOT the
outcomes accumulated so far.  Side effects already performed survive. -/
def process_and_label_emails (env : Env) : List Outcome × List Effect :=
  if env.unread.isEmpty then ([], [])
  else
    match processLoop env env.unread none [] [] with
    | (res, acts, none) => (res, acts)
    | (_, acts, some _) => ([], acts)

/-! ## `mark_email_as_read` (autolabel.py lines 327-334) and the
provider's `modify` endpoint, as a mailbox-state transformer -/

/-- One stored message: its label set and its (immutable) content. -/
structure MailboxMsg where
  labels : List String
  content : String
deriving DecidableEq

/-- A mailbox: an association list from message id to stored message. -/
abbrev MailboxState := List (String × MailboxMsg)

/-- The body of a `users().messages().modify` request. -/
structure ModifyBody where
  addLabelIds : List String
  removeLabelIds : List String
deriving DecidableEq

/-- Model of the provider's `modify` endpoint: on the addressed message,
remove the labels in `removeLabelIds` and append those in `addLabelIds`;
message content and every other message are untouched. -/
def gmailModify (st : MailboxState) (email_id : String) (body : ModifyBody) :
    MailboxState :=
  st.map fun e =>
    if e.1 = email_id then
      (e.1, ⟨(e.2.labels.filter fun l => !body.removeLabelIds.contains l) ++
        body.addLabelIds, e.2.content⟩)
    else e

/-- The request body `mark_email_as_read` sends (line 330):
`body=Lbrace 'removeLabelIds': ['UNREAD'] Rbrace` — no `addLabelIds`. -/
def markReadBody : ModifyBody := ⟨[], ["UNREAD"]⟩

/-- `mark_email_as_read` (lines 327-334) as a state transformer.
`httpFail = some e` models the `modify` call raising `HttpError`: the
exception is caught, the state is unchanged and the error string is
returned; otherwise the modify request with `markReadBody` is applied. -/
def mark_email_as_read (httpFail : Option String) (st : MailboxState)
    (email_id : String) : MailboxState × String :=
  match httpFail with
  | some e => (st, "An HttpError occurred: " ++ e)
  | none => (gmailModify st email_id markReadBody, "Email marked as read.")

/-! ## Concrete fixtures used by witnesses and counterexamples -/

/-- A plain-text, non-multipart message whose sole body decodes to "hi". -/
def plainMsg : Mime := .single "text/plain" [104, 105]

/-- Headers whose subject decodes trivially. -/
def plainHdrs : MimeHeaders := ⟨[], "alice", "me", "d1"⟩

/-- The metadata `read_email` produces for `plainMsg`/`plainHdrs`. -/
def mdA : EmailMetadata := ⟨"hi", "", "alice", "me", "d1"⟩

/-- One unread message A that decodes fine; the oracle answers HTTP 500. -/
def envC1 : Env :=
  ⟨[some "A"], fun _ => .msg plainMsg plainHdrs, fun _ => .status 500,
    .ok (some [("Review", "L1")]), fun _ _ => .ok "mod-ok"⟩

/-- One unread message A that decodes fine; the oracle answers 200 with
an empty label string. -/
def envC2 : Env :=
  ⟨[some "A"], fun _ => .msg plainMsg plainHdrs, fun _ => .ok ⟨some ⟨some ""⟩⟩,
    .ok (some [("Review", "L1")]), fun _ _ => .ok "mod-ok"⟩

/-- Two unread messages: A is classified "Review" (a known label), then
the oracle fails with HTTP 500 on B. -/
def envC3 : Env :=
  ⟨[some "A", some "B"], fun _ => .msg plainMsg plainHdrs,
    fun i => if i = "A" then .ok ⟨some ⟨some "Review"⟩⟩ else .status 500,
    .ok (some [("Review", "L1")]), fun _ _ => .ok "mod-ok"⟩

/-- The outcome the run on envC3 accumulates for A before the exception. -/
def outcomeA : Outcome := ⟨"A", .str "Review", "mod-ok", .json ⟨some ⟨some "Review"⟩⟩⟩

/-- A multipart message with one text/plain part whose bytes decode to
"hello". -/
def multiMsg : Mime :=
  .multi "multipart/alternative" [.single "text/plain" [104, 101, 108, 108, 111]]

/-- Two unread messages, in order B then A: B's raw content fails base64
decoding (raises binascii.Error), A decodes and classifies fine. -/
def envC6 : Env :=
  ⟨[some "B", some "A"],
    fun i => if i = "B" then .badBase64 else .msg plainMsg plainHdrs,
    fun _ => .ok ⟨some ⟨some "Review"⟩⟩,
    .ok (some [("Review", "L1")]), fun _ _ => .ok "mod-ok"⟩

/-- Two unread messages, both classified with the label "Nope", which
does not resolve to any mailbox label id. -/
def envC7 : Env :=
  ⟨[some "A", some "B"], fun _ => .msg plainMsg plainHdrs,
    fun _ => .ok ⟨some ⟨some "Nope"⟩⟩,
    .ok (some [("Review", "L1")]), fun _ _ => .ok "mod-ok"⟩

/-- Two unread messages, in order H then A: fetching H raises HttpError
(caught inside read_email), A decodes and classifies fine. -/
def envC6b : Env :=
  ⟨[some "H", some "A"],
    fun i => if i = "H" then .httpError "boom" else .msg plainMsg plainHdrs,
    fun _ => .ok ⟨some ⟨some "Review"⟩⟩,
    .ok (some [("Review", "L1")]), fun _ _ => .ok "mod-ok"⟩

/-- A two-message mailbox used to exercise the mark-read frame theorem. -/
def stW : MailboxState :=
  [("A", ⟨["UNREAD", "INBOX"], "hello"⟩), ("B", ⟨["UNREAD"], "x"⟩)]

/-- Character-level counterpart of `pyJoinWords` (proof support). -/
def joinChars : List (List Char) → List Char
  | [] => []
  | [t] => t
  | t :: ts => t ++ ' ' :: joinChars ts

/-! ## Helper lemmas on the CPython string model -/

theorem pySplitChars_cons_of_not_ws (c : Char) (cs : List Char)
    (h : c.isWhitespace = false) :
    pySplitChars (c :: cs) =
      (c :: cs.takeWhile (fun d => !d.isWhitespace)) ::
        pySplitChars (cs.dropWhile (fun d => !d.isWhitespace)) := by
  induction cs generalizing c with
  | nil => simp [pySplitChars, h]
  | cons d cs ih =>
    by_cases hd : d.isWhitespace
    · simp [pySplitChars, h, hd, List.takeWhile_cons, List.dropWhile_cons]
    · rw [show pySplitChars (c :: d :: cs) =
          match d :: cs, pySplitChars (d :: cs) with
          | [], _ => [[c]]
          | e :: _, r =>
            if e.isWhitespace then [c] :: r
            else match r with | [] => [[c]] | t :: ts => (c :: t) :: ts
          from by simp [pySplitChars, h]]
      rw [ih d (by simp [hd])]
      simp [hd, List.takeWhile_cons, List.dropWhile_cons]

theorem pySplitChars_cons_of_ws (c : Char) (cs : List Char)
    (h : c.isWhitespace = true) :
    pySplitChars (c :: cs) = pySplitChars cs := by
  simp [pySplitChars, h]

theorem takeWhile_all_eq {p : Char → Bool} :
    ∀ {l : List Char}, (∀ c ∈ l, p c = true) → l.takeWhile p = l := by
  intro l h
  induction l with
  | nil => rfl
  | cons c cs ih =>
    simp only [List.takeWhile_cons, h c (List.mem_cons_self c cs)]
    simp [ih fun d hd => h d (List.mem_cons_of_mem c hd)]

theorem dropWhile_all_eq {p : Char → Bool} :
    ∀ {l : List Char}, (∀ c ∈ l, p c = true) → l.dropWhile p = [] := by
  intro l h
  induction l with
  | nil => rfl
  | cons c cs ih =>
    simp only [List.dropWhile_cons, h c (List.mem_cons_self c cs)]
    simp [ih fun d hd => h d (List.mem_cons_of_mem c hd)]

theorem takeWhile_append_all {p : Char → Bool} :
    ∀ (l r : List Char), (∀ c ∈ l, p c = true) →
      (l ++ r).takeWhile p = l ++ r.takeWhile p := by
  intro l r h
  induction l with
  | nil => simp
  | cons c cs ih => simp_all [List.takeWhile_cons]

theorem dropWhile_append_all {p : Char → Bool} :
    ∀ (l r : List Char), (∀ c ∈ l, p c = true) →
      (l ++ r).dropWhile p = r.dropWhile p := by
  intro l r h
  induction l with
  | nil => simp
  | cons c cs ih => simp_all [List.dropWhile_cons]

/-- Every token produced by the split model is nonempty and free of
whitespace. -/
theorem pySplitChars_tokens (l : List Char) :
    ∀ t ∈ pySplitChars l, t ≠ [] ∧ ∀ c ∈ t, c.isWhitespace = false := by
  generalize hn : l.length = n
  induction n using Nat.strong_induction_on generalizing l with
  | _ n ih =>
    rcases l with _ | ⟨c, cs⟩
    · simp [pySplitChars]
    · by_cases hc : c.isWhitespace
      · rw [pySplitChars_cons_of_ws c cs hc]
        exact ih cs.length (by simp [← hn]) cs rfl
      · rw [pySplitChars_cons_of_not_ws c cs (by simpa using hc)]
        intro t ht
        rcases List.mem_cons.1 ht with rfl | hmem
        · refine ⟨by simp, ?_⟩
          intro x hx
          rcases List.mem_cons.1 hx with rfl | hx
          · simpa using hc
          · have := List.mem_takeWhile_imp hx
            simpa using this
        · refine ih (cs.dropWhile (fun d => !d.isWhitespace)).length ?_ _ rfl t hmem
          subst hn
          simp only [List.length_cons]
          exact Nat.lt_succ_of_le (List.dropWhile_sublist _).length_le

/-- Splitting the single-space join of nonempty whitespace-free tokens
recovers the tokens. -/
theorem pySplitChars_joinChars :
    ∀ (ts : List (List Char)),
      (∀ t ∈ ts, t ≠ [] ∧ ∀ c ∈ t, c.isWhitespace = false) →
      pySplitChars (joinChars ts) = ts := by
  intro ts h
  induction ts with
  | nil => rfl
  | cons t ts ih =>
    obtain ⟨hne, htok⟩ := h t (List.mem_cons_self t ts)
    rcases t with _ | ⟨c, t0⟩
    · exact absurd rfl hne
    have hc : c.isWhitespace = false := htok c (List.mem_cons_self c t0)
    have ht0 : ∀ x ∈ t0, (fun d => !d.isWhitespace) x = true := by
      intro x hx
      simp [htok x (List.mem_cons_of_mem c hx)]
    rcases ts with _ | ⟨u, us⟩
    · show pySplitChars (c :: t0) = [c :: t0]
      rw [pySplitChars_cons_of_not_ws c t0 hc, takeWhile_all_eq ht0,
        dropWhile_all_eq ht0]
      rfl
    · show pySplitChars (c :: (t0 ++ ' ' :: joinChars (u :: us))) = _
      rw [pySplitChars_cons_of_not_ws c _ hc,
        takeWhile_append_all t0 _ ht0, dropWhile_append_all t0 _ ht0]
      have hsp : (' ' :: joinChars (u :: us)).takeWhile (fun d => !d.isWhitespace) = [] := by
        simp [List.takeWhile_cons]
      have hsp2 : (' ' :: joinChars (u :: us)).dropWhile (fun d => !d.isWhitespace) =
          ' ' :: joinChars (u :: us) := by
        simp [List.dropWhile_cons]
      rw [hsp, hsp2, List.append_nil,
        pySplitChars_cons_of_ws ' ' _ (by simp),
        ih fun x hx => h x (List.mem_cons_of_mem _ hx)]

/-- The character data of the single-space join. -/
theorem pyJoinWords_data (ws : List String) :
    (pyJoinWords ws).data = joinChars (ws.map String.data) := by
  induction ws with
  | nil => rfl
  | cons w ws ih =>
    rcases ws with _ | ⟨u, us⟩
    · rfl
    · show (w ++ " " ++ pyJoinWords (u :: us)).data = w.data ++ ' ' :: joinChars _
      rw [String.data_append, String.data_append, ih]
      simp

/-- `count_words` is the length of the split, also on the empty string. -/
theorem count_words_eq_length (s : String) :
    count_words s = (pySplit s).length := by
  by_cases h : s = ""
  · subst h; rfl
  · simp [count_words, h]

/-- Splitting the join of a prefix of a split recovers that prefix
(String level). -/
theorem pySplit_join_take (s : String) (n : Nat) :
    pySplit (pyJoinWords ((pySplit s).take n)) = (pySplit s).take n := by
  have hts : ∀ t ∈ (pySplitChars s.data).take n,
      t ≠ [] ∧ ∀ c ∈ t, c.isWhitespace = false :=
    fun t ht => pySplitChars_tokens s.data t (List.mem_of_mem_take ht)
  have hmap : (pySplit s).take n = ((pySplitChars s.data).take n).map String.mk := by
    simp [pySplit, List.map_take]
  rw [hmap]
  have hdata : (pyJoinWords (((pySplitChars s.data).take n).map String.mk)).data =
      joinChars ((pySplitChars s.data).take n) := by
    rw [pyJoinWords_data, List.map_map,
      show (String.data ∘ String.mk) = id from rfl, List.map_id]
  show (pySplitChars (pyJoinWords _).data).map String.mk = _
  rw [hdata, pySplitChars_joinChars _ hts]

/-! ## Helper lemmas on header decoding and the MIME model -/

/-- The header-decoding loop raises exactly when some part fails to
decode. -/
theorem decodeHeaderParts_eq_none_iff (ps : List HeaderPart) (acc : String) :
    decodeHeaderParts ps acc = none ↔ ∃ p ∈ ps, headerPartFails p = true := by
  induction ps generalizing acc with
  | nil => simp [decodeHeaderParts]
  | cons p ps ih =>
    cases p with
    | str s => simp [decodeHeaderParts, ih, headerPartFails]
    | bytes bs enc =>
      simp only [decodeHeaderParts]
      cases h : pyBytesDecode (pyOr enc "utf-8") bs with
      | none => simp [headerPartFails, h]
      | some d => simp [headerPartFails, h, ih]

/-- `walk()` always yields the message itself first. -/
theorem Mime.walk_shape (m : Mime) : ∃ rest, m.walk = m :: rest := by
  cases m with
  | single ct bs => exact ⟨[], rfl⟩
  | multi ct ps => exact ⟨Mime.walkList ps, rfl⟩

/-! ## Claim C1 -/

/-- C1: on oracle failure (HTTP 500) for a message that passed decode,
`send_to_ollama` does return the error dict with absent label, but the
pipeline does NOT record an outcome and does NOT continue: line 377
calls `.get("content", False)` on the `False` default (the error dict has
no "message" key), raising `AttributeError`, which the pipeline-level
handler turns into an empty result — the batch is aborted, although the
message was already marked read. -/
theorem C1_oracle_failure_crashes_pipeline :
    send_to_ollama (.status 500) = .errorDict "Status 500" ∧
    computeLabel (.errorDict "Status 500") = .error .attributeError ∧
    read_email "A" (envC1.fetch "A") = (.ok (.metadata mdA), [.markRead "A"]) ∧
    process_and_label_emails envC1 = ([], [.markRead "A"]) :=
  ⟨rfl, rfl, rfl, rfl⟩

/-! ## Claim C2 -/

/-- C2: a message that passed decode but got an absent/empty label does
NOT get an outcome: with `label` falsy, the `if label:` guard skips the
assignment of `label_response`, and line 391 then reads the unbound
local, raising `UnboundLocalError`; the pipeline handler returns `[]`,
so the result has 0 outcomes although 1 message passed decode. -/
theorem C2_empty_label_unbound_local :
    read_email "A" (envC2.fetch "A") = (.ok (.metadata mdA), [.markRead "A"]) ∧
    computeLabel (send_to_ollama (envC2.oracle "A")) = .ok (.str "") ∧
    (LabelVal.str "").truthy = false ∧
    processLoop envC2 envC2.unread none [] [] =
      ([], [.markRead "A"], some .unboundLocalError) ∧
    process_and_label_emails envC2 = ([], [.markRead "A"]) :=
  ⟨rfl, rfl, rfl, rfl, rfl⟩

/-! ## Claim C3 -/

/-- C3 counterexample: on envC3 the loop accumulates the outcome for A
and then raises on B; the pipeline returns `[]`, not the accumulated
`[outcomeA]`. -/
theorem C3_counterexample_accumulated_discarded :
    processLoop envC3 envC3.unread none [] [] =
      ([outcomeA], [.markRead "A", .applyLabel "A" "L1", .markRead "B"],
        some .attributeError) ∧
    process_and_label_emails envC3 =
      ([], [.markRead "A", .applyLabel "A" "L1", .markRead "B"]) ∧
    ([] : List Outcome) ≠ [outcomeA] :=
  ⟨rfl, rfl, by simp⟩

/-- C3 (amended): the run always returns a list and never raises; when a
pipeline-level exception occurs the returned list is EMPTY (the
accumulated outcomes are discarded), and without an exception the
accumulated outcomes are returned. -/
theorem C3_always_list_empty_on_exception (env : Env) :
    (∀ res acts e, processLoop env env.unread none [] [] = (res, acts, some e) →
      process_and_label_emails env = ([], acts)) ∧
    (∀ res acts, processLoop env env.unread none [] [] = (res, acts, none) →
      process_and_label_emails env = (res, acts)) := by
  constructor
  · intro res acts e h
    unfold process_and_label_emails
    by_cases hemp : env.unread.isEmpty
    · rw [List.isEmpty_iff] at hemp
      rw [hemp] at h
      simp [processLoop] at h
    · simp [hemp, h]
  · intro res acts h
    unfold process_and_label_emails
    by_cases hemp : env.unread.isEmpty
    · rw [List.isEmpty_iff] at hemp
      rw [hemp] at h
      simp only [processLoop, Prod.mk.injEq] at h
      simp [hemp, ← h.1, ← h.2.1]
    · simp [hemp, h]

/-- C3 witness: the amended theorem applied to the concrete envC3 run. -/
theorem C3_witness :
    process_and_label_emails envC3 =
      ([], [.markRead "A", .applyLabel "A" "L1", .markRead "B"]) :=
  (C3_always_list_empty_on_exception envC3).1 [outcomeA]
    [.markRead "A", .applyLabel "A" "L1", .markRead "B"] .attributeError rfl

/-! ## Claim C4 -/

/-- C4: the multipart message multiMsg HAS a text/plain part whose bytes
decode to "hello", yet the decoder extracts nothing from it: the `break`
at line 287 sits at loop-body level, so only the first element of
`walk()` — the multipart container itself — is examined, and line 283
decodes `mime_message.get_payload(decode=True)` (the root), not the
part.  The body falls through to the sentinel "THIS IS SPAM" and the
message still proceeds (and is marked read). -/
theorem C4_multipart_text_part_ignored :
    multiMsg.is_multipart = true ∧
    (∃ part ∈ multiMsg.walk, part.get_content_type = "text/plain" ∧
      part.get_payload_decode = some [104, 101, 108, 108, 111]) ∧
    decodeUtf8Strict [104, 101, 108, 108, 111] = some "hello" ∧
    extractBody multiMsg = .ok none ∧
    read_email "C" (.msg multiMsg plainHdrs) =
      (.ok (.metadata ⟨"THIS IS SPAM", "", "alice", "me", "d1"⟩),
        [.markRead "C"]) :=
  ⟨rfl,
   ⟨.single "text/plain" [104, 101, 108, 108, 111],
     List.Mem.tail _ (List.Mem.head _), rfl, rfl⟩,
   rfl, rfl, rfl⟩

/-! ## Claim C5 -/

/-- C5 counterexample: for a decoded body "a  b" (two words, double
space, w = 2 ≤ 10000) the content `read_email` produces keeps the double
space — spacing is NOT collapsed to single spaces when no truncation
happens. -/
theorem C5_counterexample_spacing_kept :
    read_email "E" (.msg (.single "text/plain" [97, 32, 32, 98]) plainHdrs) =
      (.ok (.metadata ⟨"a  b", "", "alice", "me", "d1"⟩), [.markRead "E"]) ∧
    count_words "a  b" = 2 ∧
    ("a  b" : String) ≠ "a b" :=
  ⟨rfl, rfl, by decide⟩

/-- C5 (amended): the word-cap step gives content with exactly
min(w, 10000) words, the first min(w, 10000) words unchanged and in
order; but spacing is rewritten to single spaces only in the truncating
case (w > 10000) — otherwise the body is returned entirely unchanged. -/
theorem C5_word_cap_law (body : String) :
    count_words (truncateBody body) = min (count_words body) 10000 ∧
    pySplit (truncateBody body) = (pySplit body).take 10000 ∧
    (count_words body ≤ 10000 → truncateBody body = body) ∧
    (10000 < count_words body →
      truncateBody body = pyJoinWords ((pySplit body).take 10000)) := by
  by_cases h : count_words body > 10000
  · have htr : truncateBody body = pyJoinWords ((pySplit body).take 10000) := by
      simp [truncateBody, h]
    refine ⟨?_, ?_, fun hle => absurd h (by omega), fun _ => htr⟩
    · rw [htr, count_words_eq_length, pySplit_join_take, List.length_take,
        count_words_eq_length body]
      omega
    · rw [htr, pySplit_join_take]
  · have htr : truncateBody body = body := by simp [truncateBody, h]
    have hlen : (pySplit body).length ≤ 10000 := by
      rw [← count_words_eq_length]; omega
    refine ⟨?_, ?_, fun _ => htr, fun hgt => absurd hgt h⟩
    · rw [htr]; omega
    · rw [htr, List.take_of_length_le hlen]

/-- C5 witness: the word-cap law applied at the concrete body "a  b",
discharging the w ≤ 10000 hypothesis. -/
theorem C5_witness : truncateBody "a  b" = "a  b" :=
  (C5_word_cap_law "a  b").2.2.1 (by decide)

/-! ## Claim C6 -/

/-- C6 counterexample: unread = [B, A]; B's raw content fails decode
(raises binascii.Error, which only the pipeline-level handler catches),
A decodes and classifies fine.  B is indeed neither recorded nor marked
read — but it is not "skipped": the run aborts, A is never processed,
and the result is empty instead of containing A's outcome. -/
theorem C6_counterexample_decode_failure_aborts :
    envC6.unread = [some "B", some "A"] ∧
    read_email "B" (envC6.fetch "B") = (.error .binasciiError, []) ∧
    read_email "A" (envC6.fetch "A") = (.ok (.metadata mdA), [.markRead "A"]) ∧
    process_and_label_emails envC6 = ([], []) :=
  ⟨rfl, rfl, rfl, rfl⟩

/-- C6 (amended): (1) mark-read is invoked exactly when `read_email`
decoded the message and returned its metadata — read-after-fetch order
holds; (2) a fetch that raises HttpError makes the message be skipped
(not recorded, not marked read, remaining ids still processed);
(3) a decode failure that raises a non-HttpError exception likewise
leaves the message unrecorded and unmarked, but ABORTS the loop instead
of skipping to the next id. -/
theorem C6_read_after_decode :
    (∀ email_id fetch,
      (∃ md, (read_email email_id fetch).1 = .ok (.metadata md)) ↔
        (read_email email_id fetch).2 = [.markRead email_id]) ∧
    (∀ env email_id m rest lr res acts, email_id ≠ "" →
      env.fetch email_id = .httpError m →
      processLoop env (some email_id :: rest) lr res acts =
        processLoop env rest lr res acts) ∧
    (∀ env email_id e rest lr res acts, email_id ≠ "" →
      read_email email_id (env.fetch email_id) = (.error e, []) →
      processLoop env (some email_id :: rest) lr res acts = (res, acts, some e)) := by
  refine ⟨?_, ?_, ?_⟩
  · intro email_id fetch
    cases fetch with
    | httpError m => simp [read_email]
    | badBase64 => simp [read_email]
    | msg mime hdrs =>
      simp only [read_email]
      cases hb : extractBody mime with
      | error e => simp
      | ok bodyOpt =>
        cases hs : decode_mime_header hdrs.subject with
        | none => simp
        | some subj => simp
  · intro env email_id m rest lr res acts hid h
    simp [processLoop, hid, h, read_email]
  · intro env email_id e rest lr res acts hid h
    simp [processLoop, hid, h]

/-- C6 witness: the amended theorem applied to concrete runs — an
HttpError fetch for H is skipped (envC6b), a binascii decode failure for
B aborts with the accumulated state (envC6). -/
theorem C6_witness :
    processLoop envC6b (some "H" :: [some "A"]) none [] [] =
      processLoop envC6b [some "A"] none [] [] ∧
    processLoop envC6 (some "B" :: [some "A"]) none [] [] =
      ([], [], some .binasciiError) :=
  ⟨C6_read_after_decode.2.1 envC6b "H" "boom" [some "A"] none [] []
      (by decide) rfl,
   C6_read_after_decode.2.2 envC6 "B" .binasciiError [some "A"] none [] []
      (by decide) rfl⟩

/-! ## Claim C7 -/

/-- C7: when the oracle yields a non-empty label name that resolves to
no mailbox label id, `label_email` performs no modify call (no mutation
is attempted), returns the JSON error marker without raising, the
outcome recorded for the message carries that marker, and the loop
continues with the remaining ids. -/
theorem C7_unknown_label_no_mutation (env : Env) (email_id labelName : String)
    (rest : List (Option String)) (lr : Option String) (res : List Outcome)
    (acts : List Effect) (md : EmailMetadata) (ls : List (String × String))
    (hid : email_id ≠ "")
    (hread : read_email email_id (env.fetch email_id) =
      (.ok (.metadata md), [.markRead email_id]))
    (horacle : env.oracle email_id = .ok ⟨some ⟨some labelName⟩⟩)
    (hne : labelName ≠ "")
    (hls : env.labelsList = .ok (some ls))
    (hmiss : ∀ l ∈ ls, l.1 ≠ labelName) :
    label_email env.labelsList env.modify email_id labelName =
      (labelNotFoundResponse labelName, []) ∧
    processLoop env (some email_id :: rest) lr res acts =
      processLoop env rest (some (labelNotFoundResponse labelName))
        (res ++ [⟨email_id, .str labelName, labelNotFoundResponse labelName,
          .json ⟨some ⟨some labelName⟩⟩⟩])
        (acts ++ [.markRead email_id]) := by
  have hfind : ls.find? (fun l => l.1 = labelName) = none :=
    List.find?_eq_none.mpr (fun x hx => by simpa using hmiss x hx)
  have hlbl : label_email env.labelsList env.modify email_id labelName =
      (labelNotFoundResponse labelName, []) := by
    rw [hls]
    simp [label_email, hfind]
  refine ⟨hlbl, ?_⟩
  simp [processLoop, hid, hread, horacle, send_to_ollama, computeLabel,
    LabelVal.truthy, hne, hlbl]

/-- C7 witness: the unknown-label theorem applied to the concrete run
envC7 (label "Nope" resolves to nothing). -/
theorem C7_witness :
    processLoop envC7 (some "A" :: [some "B"]) none [] [] =
      processLoop envC7 [some "B"] (some (labelNotFoundResponse "Nope"))
        [⟨"A", .str "Nope", labelNotFoundResponse "Nope",
          .json ⟨some ⟨some "Nope"⟩⟩⟩]
        [.markRead "A"] :=
  (C7_unknown_label_no_mutation envC7 "A" "Nope" [some "B"] none [] []
    mdA [("Review", "L1")] (by decide) rfl rfl (by decide) rfl
    (by decide)).2

/-! ## Claim C8 -/

/-- C8 counterexample: a subject header part whose bytes do not decode
under its declared charset makes `decode_mime_header` raise (there is no
try/except and no fall back to the raw header string), and since
`read_email` catches only HttpError the whole message's processing is
aborted. -/
theorem C8_counterexample_no_header_fallback :
    decode_mime_header [.bytes [255] (some "utf-8")] = none ∧
    read_email "F"
        (.msg plainMsg ⟨[.bytes [255] (some "utf-8")], "alice", "me", "d1"⟩) =
      (.error .unicodeDecodeError, []) :=
  ⟨rfl, rfl⟩

/-- C8 (amended): `decode_mime_header` raises exactly when some header
part fails to decode — there is no fallback to the raw header string —
and such a failure propagates out of `read_email` (which catches only
HttpError), aborting that message's processing. -/
theorem C8_header_decode_failure_raises :
    (∀ parts, decode_mime_header parts = none ↔
      ∃ p ∈ parts, headerPartFails p = true) ∧
    (∀ email_id m hdrs b, extractBody m = .ok b →
      decode_mime_header hdrs.subject = none →
      read_email email_id (.msg m hdrs) = (.error .unicodeDecodeError, [])) := by
  constructor
  · intro parts
    exact decodeHeaderParts_eq_none_iff parts ""
  · intro email_id m hdrs b hb hs
    simp [read_email, hb, hs]

/-- C8 witness: the amended theorem applied to a concrete undecodable
subject header. -/
theorem C8_witness :
    read_email "G" (.msg plainMsg ⟨[.bytes [255] none], "a", "b", "c"⟩) =
      (.error .unicodeDecodeError, []) ∧
    decode_mime_header [.bytes [255] none] = none :=
  ⟨C8_header_decode_failure_raises.2 "G" plainMsg
      ⟨[.bytes [255] none], "a", "b", "c"⟩ (some "hi") rfl rfl,
   (C8_header_decode_failure_raises.1 [.bytes [255] none]).mpr
      ⟨.bytes [255] none, List.Mem.head _, rfl⟩⟩

/-! ## Claim C9 -/

/-- C9 counterexample: a non-multipart message whose body bytes fail
strict utf-8 decoding makes `read_email` raise UnicodeDecodeError — the
non-multipart branch (line 290) has no permissive fallback. -/
theorem C9_counterexample_nonmultipart_raises :
    decodeUtf8Strict [255] = none ∧
    read_email "D" (.msg (.single "text/plain" [255]) plainHdrs) =
      (.error .unicodeDecodeError, []) :=
  ⟨rfl, rfl⟩

/-- C9 (amended): the utf-8 → latin-1(errors=replace) fallback exists
only in the multipart branch (lines 282-286): a non-multipart body
raises on strict-decode failure and succeeds otherwise, while the
multipart branch can never raise UnicodeDecodeError. -/
theorem C9_fallback_only_in_multipart_branch :
    (∀ ct bs, decodeUtf8Strict bs = none →
      extractBody (.single ct bs) = .error .unicodeDecodeError) ∧
    (∀ ct bs s, decodeUtf8Strict bs = some s →
      extractBody (.single ct bs) = .ok (some s)) ∧
    (∀ m, m.is_multipart = true →
      extractBody m ≠ .error .unicodeDecodeError) := by
  refine ⟨?_, ?_, ?_⟩
  · intro ct bs h
    simp [extractBody, Mime.is_multipart, Mime.get_payload_decode, h]
  · intro ct bs s h
    simp [extractBody, Mime.is_multipart, Mime.get_payload_decode, h]
  · intro m hm
    cases m with
    | single ct bs => simp [Mime.is_multipart] at hm
    | multi ct ps =>
      by_cases hct : (Mime.multi ct ps).get_content_type = "text/plain" <;>
        simp [extractBody, Mime.is_multipart, Mime.walk,
          Mime.get_payload_decode, hct]

/-- C9 witness: the amended theorem applied at concrete bytes — a
non-ASCII non-multipart body raises, the multipart fixture does not. -/
theorem C9_witness :
    extractBody (.single "text/plain" [254]) = .error .unicodeDecodeError ∧
    extractBody multiMsg ≠ .error .unicodeDecodeError :=
  ⟨C9_fallback_only_in_multipart_branch.1 "text/plain" [254] rfl,
   C9_fallback_only_in_multipart_branch.2.2 multiMsg rfl⟩

/-! ## Claim C10 -/

/-- C10: `mark_email_as_read` sends a modify request that removes
exactly the UNREAD label and adds none: on the addressed message only
UNREAD is dropped (all other labels and the content are kept verbatim),
every other message's entry is untouched, and on an HttpError from the
provider nothing is mutated and the error string is returned instead of
raising. -/
theorem C10_mark_read_frame (st : MailboxState) (email_id : String) :
    (mark_email_as_read none st email_id).1 =
      st.map (fun e => if e.1 = email_id then
        (e.1, ⟨e.2.labels.filter (fun l => l ≠ "UNREAD"), e.2.content⟩)
      else e) ∧
    (mark_email_as_read none st email_id).2 = "Email marked as read." ∧
    (∀ p ∈ st, p.1 ≠ email_id → p ∈ (mark_email_as_read none st email_id).1) ∧
    (∀ errMsg, mark_email_as_read (some errMsg) st email_id =
      (st, "An HttpError occurred: " ++ errMsg)) := by
  refine ⟨?_, rfl, ?_, fun errMsg => rfl⟩
  · show gmailModify st email_id markReadBody = _
    unfold gmailModify markReadBody
    apply List.map_congr_left
    intro e _
    by_cases he : e.1 = email_id <;> simp [he]
  · intro p hp hne
    show p ∈ gmailModify st email_id markReadBody
    unfold gmailModify
    have hm := List.mem_map_of_mem
      (f := fun e : String × MailboxMsg => if e.1 = email_id then
        (e.1, (⟨(e.2.labels.filter fun l => !markReadBody.removeLabelIds.contains l) ++
          markReadBody.addLabelIds, e.2.content⟩ : MailboxMsg))
      else e) hp
    simpa [hne] using hm

/-- C10 witness: the frame theorem applied to a concrete two-message
mailbox. -/
theorem C10_witness :
    (mark_email_as_read none stW "A").1 =
      [("A", ⟨["INBOX"], "hello"⟩), ("B", ⟨["UNREAD"], "x"⟩)] ∧
    ("B", (⟨["UNREAD"], "x"⟩ : MailboxMsg)) ∈ (mark_email_as_read none stW "A").1 ∧
    mark_email_as_read (some "boom") stW "A" = (stW, "An HttpError occurred: boom") := by
  refine ⟨?_, ?_, ?_⟩
  · rw [(C10_mark_read_frame stW "A").1]
    rfl
  · exact (C10_mark_read_frame stW "A").2.2.1 ("B", ⟨["UNREAD"], "x"⟩)
      (by decide) (by decide)
  · exact (C10_mark_read_frame stW "A").2.2.2 "boom"
